import Mathlib

/-!
# Offline-first sync core of HikerLink — shallow embedding

This file embeds, in Lean, the data model and the operations of the
offline-first synchronization core of the HikerLink application:

* the local message store (`src/src/services/databaseService.js`):
  the SQLite `messages` table and the operations `saveMessage`,
  `markMessageDelivered`, `markMessageForSync`, `updateMessageSyncStatus`,
  `getMessagesNeedingSync`, `getMessagesByPeerId`;
* the cloud transport and the periodic recovery sweep
  (`src/src/services/firebaseService.js`): `saveMessage`,
  `getChatMessages`, `syncMessagesToCloud`;
* the messaging coordinator (`MessagingService` in
  `src/src/services/mapCacheService.js`): `sendTextMessage`,
  `sendSOSMessage`, `getMessages`;
* the SOS user-visible outcome (`SOSService.sendSOS`);
* the tracking-mode controller (`BackgroundLocationService.setTrackingMode`
  and `_onActivityChange` in `src/src/services/mapCacheService.js`).

Modelling conventions:
* JavaScript strings stay `String`; ISO-8601 timestamp strings are modelled
  as `Nat` (ISO strings compare lexicographically exactly as their instants
  compare, both in the SQL `ORDER BY` and in the JS `new Date(a) - new Date(b)`
  comparators, so a numeric timestamp is order-faithful).
* SQLite rows of the `messages` table are `MessageRow`; the audit columns
  `sender_name`, `created_at`, `updated_at` and the `message_contents`
  side table are omitted: no operation or claim under verification reads
  them, and `message_contents` is keyed by the same `INSERT OR REPLACE`
  on `message_id` as the main table.
* `async` functions that can throw return `Option`; a thrown exception is
  `none` unless the source catches it locally, in which case the catch
  branch is modelled explicitly.
* External I/O outcomes (a Firestore write throwing, the Bridgefy SDK
  accepting a broadcast, the location provider producing a fix) are inputs
  (`Bool` flags or a `String → Bool` failure oracle), mirroring the
  source's `try`/`catch` structure.
* Firestore auto-generated document ids (`doc(messagesRef).id`) are
  modelled by `autoId` applied to the current size of the cloud store,
  which is enough to make each generated id fresh.
-/

namespace HikerLink

/-- A row of the SQLite `messages` table (`databaseService.createTables`).
`sync_status` is the TEXT column holding one of
`"pending" | "syncing" | "synced" | "failed"`. -/
structure MessageRow where
  id : String
  peer_id : String
  sender_id : String
  mtype : String
  content : String
  timestamp : Nat
  is_outgoing : Bool
  is_emergency : Bool
  is_delivered : Bool
  needs_sync : Bool
  sync_status : String
deriving DecidableEq

/-- The message object callers pass to `databaseService.saveMessage`. -/
structure MessageInput where
  messageId : String
  peerId : String
  senderId : String
  localUserId : String
  mtype : String
  content : String
  timestamp : Nat
  isDelivered : Bool
  isEmergency : Bool
deriving DecidableEq

/-- The local message store: the rows of the `messages` table. -/
abbrev Store := List MessageRow

/-- The row written by `databaseService.saveMessage` (lines 129-208):
`is_emergency = message.isEmergency || message.type === 'sos'`,
`is_outgoing = message.senderId === message.localUserId`, and the
`sync_status` column is always written as `'pending'`. -/
def rowOfInput (m : MessageInput) (needsSync : Bool) : MessageRow :=
  { id := m.messageId
    peer_id := m.peerId
    sender_id := m.senderId
    mtype := m.mtype
    content := m.content
    timestamp := m.timestamp
    is_outgoing := m.senderId == m.localUserId
    is_emergency := m.isEmergency || m.mtype == "sos"
    is_delivered := m.isDelivered
    needs_sync := needsSync
    sync_status := "pending" }

/-- `INSERT OR REPLACE` keyed on the primary key `id`: the row with a
matching id is replaced, otherwise the new row is inserted. -/
def upsert (db : Store) (r : MessageRow) : Store :=
  if db.any (fun x => x.id == r.id) then
    db.map (fun x => if x.id == r.id then r else x)
  else db ++ [r]

/-- `databaseService.saveMessage(message, needsSync)`. -/
def dbSaveMessage (db : Store) (m : MessageInput) (needsSync : Bool) : Store :=
  upsert db (rowOfInput m needsSync)

/-- `databaseService.updateMessageSyncStatus(messageId, status)`:
`UPDATE messages SET sync_status = ? WHERE id = ?`. -/
def updateMessageSyncStatus (db : Store) (mid status : String) : Store :=
  db.map (fun x => if x.id == mid then { x with sync_status := status } else x)

/-- `databaseService.markMessageForSync(messageId, needsSync)`:
`UPDATE messages SET needs_sync = ?, sync_status = ? WHERE id = ?` with
status `'pending'` when marking for sync and `'synced'` when unmarking. -/
def markMessageForSync (db : Store) (mid : String) (needsSync : Bool) : Store :=
  db.map (fun x =>
    if x.id == mid then
      { x with needs_sync := needsSync,
               sync_status := if needsSync then "pending" else "synced" }
    else x)

/-- `databaseService.markMessageDelivered(messageId)`. -/
def markMessageDelivered (db : Store) (mid : String) : Store :=
  db.map (fun x => if x.id == mid then { x with is_delivered := true } else x)

/-- The `WHERE` clause of `getMessagesNeedingSync`:
`needs_sync = 1 AND sync_status = 'pending'`. -/
def needsSyncPending (m : MessageRow) : Bool :=
  m.needs_sync && m.sync_status == "pending"

/-- Timestamp-ascending order on rows (`ORDER BY m.timestamp ASC`). -/
def tsLE (a b : MessageRow) : Prop := a.timestamp ≤ b.timestamp

instance : DecidableRel tsLE := fun a b => Nat.decLe a.timestamp b.timestamp

instance : IsTotal MessageRow tsLE := ⟨fun a b => Nat.le_total a.timestamp b.timestamp⟩

instance : IsTrans MessageRow tsLE := ⟨fun _ _ _ => Nat.le_trans⟩

/-- Timestamp-descending order on rows (`ORDER BY m.timestamp DESC`). -/
def tsGE (a b : MessageRow) : Prop := b.timestamp ≤ a.timestamp

instance : DecidableRel tsGE := fun a b => Nat.decLe b.timestamp a.timestamp

instance : IsTotal MessageRow tsGE := ⟨fun a b => Nat.le_total b.timestamp a.timestamp⟩

instance : IsTrans MessageRow tsGE := ⟨fun _ _ _ h h' => Nat.le_trans h' h⟩

/-- `databaseService.getMessagesNeedingSync(limit = 50)` (lines 283-334):
`SELECT … WHERE m.needs_sync = 1 AND m.sync_status = 'pending'
ORDER BY m.timestamp ASC LIMIT ?`. -/
def getMessagesNeedingSync (db : Store) (lim : Nat) : List MessageRow :=
  ((db.filter needsSyncPending).insertionSort tsLE).take lim

/-- `databaseService.getMessagesByPeerId(peerId, limit = 50, offset = 0)`:
`SELECT … WHERE m.peer_id = ? ORDER BY m.timestamp DESC LIMIT ? OFFSET ?`. -/
def getMessagesByPeerId (db : Store) (peerId : String) (lim offset : Nat) :
    List MessageRow :=
  (((db.filter (fun m => m.peer_id == peerId)).insertionSort tsGE).drop offset).take lim

/-- A message document of the Firestore `chats/{chatId}/messages`
collection, as written by `FirebaseService.saveMessage` (lines 517-566).
`docId` is the auto-generated document id `doc(messagesRef).id`;
`timestamp` is `new Date().toISOString()` taken at save time. -/
structure CloudMessage where
  docId : String
  senderId : String
  receiverId : String
  mtype : String
  content : String
  timestamp : Nat
  isDelivered : Bool
  isEmergency : Bool
deriving DecidableEq

/-- A fresh Firestore auto-id, modelled from the size of the cloud store. -/
def autoId (n : Nat) : String := "doc" ++ toString n

/-- The mutable state of the `FirebaseService` singleton that
`syncMessagesToCloud` reads (`initialized`, `userId`, `onlineStatus`)
together with the cloud message store it writes. The constructor declares
no re-entrancy flag for the sweep. -/
structure FirebaseState where
  initialized : Bool
  userId : Option String
  onlineStatus : Bool
  cloud : List CloudMessage
deriving DecidableEq

/-- `FirebaseService.isSignedIn()` (`!!this.user`). -/
def fbIsSignedIn (fb : FirebaseState) : Bool := fb.userId.isSome

/-- `FirebaseService.saveMessage(message)` (lines 517-566): throws
(`none`) unless initialized and authenticated; otherwise creates a NEW
message document under a freshly generated id — each call appends a new
document, there is no upsert keyed on any caller-supplied identifier. -/
def fbSaveMessage (fb : FirebaseState) (peerId mtype content : String)
    (isEmergency : Bool) (now : Nat) : Option (FirebaseState × String) :=
  if fb.initialized && fb.userId.isSome then
    let did := autoId fb.cloud.length
    let docMsg : CloudMessage :=
      { docId := did
        senderId := fb.userId.getD ""
        receiverId := peerId
        mtype := mtype
        content := content
        timestamp := now
        isDelivered := false
        isEmergency := isEmergency }
    some ({ fb with cloud := fb.cloud ++ [docMsg] }, did)
  else none

/-- The body of the per-message loop of
`FirebaseService.syncMessagesToCloud` (lines 843-888), iterated over the
list returned by `getMessagesNeedingSync`:
set `'syncing'`, attempt the cloud save, then on success
`markMessageForSync(id, false)` and `'synced'`, and on a thrown error the
catch branch sets `'failed'`. `fail` is the failure oracle for the
Firestore write (the `try` block throwing for that message id). -/
def syncLoop (fail : String → Bool) (now : Nat) :
    List MessageRow → FirebaseState → Store → Nat → FirebaseState × Store × Nat
  | [], fb, db, count => (fb, db, count)
  | m :: rest, fb, db, count =>
    let db1 := updateMessageSyncStatus db m.id "syncing"
    if fail m.id then
      syncLoop fail now rest fb (updateMessageSyncStatus db1 m.id "failed") count
    else
      match fbSaveMessage fb m.peer_id m.mtype m.content m.is_emergency now with
      | none =>
        syncLoop fail now rest fb (updateMessageSyncStatus db1 m.id "failed") count
      | some (fb', _) =>
        let db2 := markMessageForSync db1 m.id false
        let db3 := updateMessageSyncStatus db2 m.id "synced"
        syncLoop fail now rest fb' db3 (count + 1)

/-- `FirebaseService.syncMessagesToCloud()` (lines 828-895): returns 0
immediately unless `initialized && userId && onlineStatus`; otherwise
fetches `getMessagesNeedingSync()` (default limit 50) and runs the
per-message loop. Returns the new service state, the new store and the
synced count. -/
def syncMessagesToCloud (fail : String → Bool) (now : Nat)
    (fb : FirebaseState) (db : Store) : FirebaseState × Store × Nat :=
  if fb.initialized && fb.userId.isSome && fb.onlineStatus then
    syncLoop fail now (getMessagesNeedingSync db 50) fb db 0
  else (fb, db, 0)

/-- The fields of the `MessagingService` singleton (`mapCacheService.js`,
second embedded module) read by the send paths. `userId` models
`this.userId || bridgefyService.userId` (the local user identity). -/
structure MessagingState where
  initialized : Bool
  isOnline : Bool
  isOfflineMessagingEnabled : Bool
  userId : String
deriving DecidableEq

/-- The calls a send path makes, in program order: the local persist
(`databaseService.saveMessage`) and the transport attempts. -/
inductive SendEvent where
  | persistLocal (messageId : String)
  | cloudSave (peerId mtype content : String)
  | cloudSaveUserLocation (isEmergency : Bool)
  | peerSend (peerId : String)
  | peerBroadcastSOS (message : String)
deriving DecidableEq

/-- Whether an event is a transport attempt (peer or cloud), as opposed to
the local write-ahead persist. -/
def SendEvent.isTransport : SendEvent → Bool
  | .persistLocal _ => false
  | _ => true

/-- Write-ahead discipline over a call trace: every transport attempt is
preceded by some local persist. The accumulator records whether a persist
has already occurred. -/
def writeAhead : Bool → List SendEvent → Bool
  | _, [] => true
  | _, .persistLocal _ :: tl => writeAhead true tl
  | seen, _ :: tl => seen && writeAhead seen tl

/-- `MessagingService.sendTextMessage(peerId, text)` (lines 320-386 of the
module). Throws (`none`) when not initialized. Persists the message
locally with `needsSync = this.isOnline`, then attempts the cloud save
when online and signed in (`cloudFails` = that Firestore write throwing,
caught locally), then attempts the peer send when offline messaging is
enabled and `(!firebaseSent || !isOnline)` (`peerResult` = the Bridgefy
SDK's returned status). `msgId`/`timestamp` stand for the generated
`msg_${Date.now()}_${random}` id and `new Date().toISOString()`. Returns
the new store, the new cloud state, the call trace and the returned
`firebaseSent || bridgefySent`. -/
def sendTextMessage (svc : MessagingState) (fb : FirebaseState) (db : Store)
    (peerId text msgId : String) (timestamp now : Nat)
    (cloudFails : Bool) (peerResult : Bool) :
    Option (Store × FirebaseState × List SendEvent × Bool) :=
  if !svc.initialized then none
  else
    let m : MessageInput :=
      { messageId := msgId
        peerId := peerId
        senderId := svc.userId
        localUserId := svc.userId
        mtype := "text"
        content := text
        timestamp := timestamp
        isDelivered := false
        isEmergency := false }
    let db1 := dbSaveMessage db m svc.isOnline
    let cloudLeg : FirebaseState × List SendEvent × Bool :=
      if svc.isOnline && fbIsSignedIn fb then
        if cloudFails then (fb, [SendEvent.cloudSave peerId "text" text], false)
        else
          match fbSaveMessage fb peerId "text" text false now with
          | none => (fb, [SendEvent.cloudSave peerId "text" text], false)
          | some (fb', _) => (fb', [SendEvent.cloudSave peerId "text" text], true)
      else (fb, [], false)
    let fb' := cloudLeg.1
    let firebaseSent := cloudLeg.2.2
    let peerLeg : List SendEvent × Bool :=
      if svc.isOfflineMessagingEnabled && (!firebaseSent || !svc.isOnline) then
        ([SendEvent.peerSend peerId], peerResult)
      else ([], false)
    some (db1, fb',
      SendEvent.persistLocal msgId :: (cloudLeg.2.1 ++ peerLeg.1),
      firebaseSent || peerLeg.2)

/-- `MessagingService.sendSOSMessage(message)` (lines 499-542 of the
module). Throws (`none`) when not initialized or when no location fix is
available. Attempts `firebaseService.saveUserLocation({...location,
message}, true)` when online and signed in (failure caught locally), then
`bridgefyService.sendSOS(message)` when offline messaging is enabled; no
local persist is performed anywhere on this path. Returns the call trace
and the two per-leg outcomes `(firebaseSent, bridgefySent)`; the JS
function returns their disjunction. -/
def sendSOSMessage (svc : MessagingState) (fb : FirebaseState)
    (message : String) (hasLocation : Bool)
    (cloudFails : Bool) (peerResult : Bool) :
    Option (List SendEvent × Bool × Bool) :=
  if !svc.initialized then none
  else if !hasLocation then none
  else
    let cloudLeg : List SendEvent × Bool :=
      if svc.isOnline && fbIsSignedIn fb then
        ([SendEvent.cloudSaveUserLocation true], !cloudFails)
      else ([], false)
    let peerLeg : List SendEvent × Bool :=
      if svc.isOfflineMessagingEnabled then
        ([SendEvent.peerBroadcastSOS message], peerResult)
      else ([], false)
    some (cloudLeg.1 ++ peerLeg.1, cloudLeg.2, peerLeg.2)

/-- The user-visible outcome of `SOSService.sendSOS`
(`src/unnamed/part_003`, lines 152-218): one of the three alerts the
function can show. `sent` carries whether the alert text appends
"and to the cloud." — which depends only on `firebaseService.isSignedIn()`. -/
inductive SOSAlert where
  | sent (mentionsCloud : Bool)
  | failedAlert
  | errorAlert
deriving DecidableEq

/-- `SOSService.sendSOS` outcome: runs
`messagingService.sendSOSMessage(message)` and alerts `'SOS Sent'` when
the returned disjunction is true and `'SOS Sending Failed'` otherwise;
an exception shows `'SOS Error'`. The side cloud writes of the
signed-in branch (`saveUserLocation`, `saveSOSEvent`) have their errors
swallowed and do not affect the alert. -/
def sosSendOutcome (svc : MessagingState) (fb : FirebaseState)
    (message : String) (hasLocation : Bool)
    (cloudFails : Bool) (peerResult : Bool) : SOSAlert :=
  match sendSOSMessage svc fb message hasLocation cloudFails peerResult with
  | none => SOSAlert.errorAlert
  | some (_, firebaseSent, bridgefySent) =>
    if firebaseSent || bridgefySent then SOSAlert.sent (fbIsSignedIn fb)
    else SOSAlert.failedAlert

/-- An entry of the merged message view returned by
`MessagingService.getMessages`. Local-store rows and cloud-fetched
messages are distinct JS object shapes: a local row carries its
identifier in the `id` column and has NO `messageId` field, while a
mapped cloud message carries it in `messageId` and has no `id` field;
both optional fields record exactly the fields present on each shape. -/
structure ViewMsg where
  messageId : Option String
  rowId : Option String
  peerId : String
  mtype : String
  content : String
  timestamp : Nat
deriving DecidableEq

/-- The message identifier an entry of the merged view carries
(cloud `messageId`, or the local row's `id`). -/
def viewIdent (v : ViewMsg) : String := v.messageId.getD (v.rowId.getD "")

/-- A local-store row as it appears in the merged view. -/
def localToView (r : MessageRow) : ViewMsg :=
  { messageId := none
    rowId := some r.id
    peerId := r.peer_id
    mtype := r.mtype
    content := r.content
    timestamp := r.timestamp }

/-- The `cloudMessages.map(...)` conversion in `getMessages`:
`messageId: msg.id`, `peerId: msg.receiverId === this.userId ?
msg.senderId : msg.receiverId`. -/
def cloudToView (localUserId : String) (c : CloudMessage) : ViewMsg :=
  { messageId := some c.docId
    rowId := none
    peerId := if c.receiverId == localUserId then c.senderId else c.receiverId
    mtype := c.mtype
    content := c.content
    timestamp := c.timestamp }

/-- Timestamp-ascending order on view entries (the JS
`sort((a, b) => new Date(a.timestamp) - new Date(b.timestamp))`). -/
def vtsLE (a b : ViewMsg) : Prop := a.timestamp ≤ b.timestamp

instance : DecidableRel vtsLE := fun a b => Nat.decLe a.timestamp b.timestamp

instance : IsTotal ViewMsg vtsLE := ⟨fun a b => Nat.le_total a.timestamp b.timestamp⟩

instance : IsTrans ViewMsg vtsLE := ⟨fun _ _ _ => Nat.le_trans⟩

/-- Timestamp order on cloud documents, for `getChatMessages`. -/
def ctsLE (a b : CloudMessage) : Prop := a.timestamp ≤ b.timestamp

instance : DecidableRel ctsLE := fun a b => Nat.decLe a.timestamp b.timestamp

instance : IsTotal CloudMessage ctsLE := ⟨fun a b => Nat.le_total a.timestamp b.timestamp⟩

instance : IsTrans CloudMessage ctsLE := ⟨fun _ _ _ => Nat.le_trans⟩

/-- Timestamp-descending order on cloud documents. -/
def ctsGE (a b : CloudMessage) : Prop := b.timestamp ≤ a.timestamp

instance : DecidableRel ctsGE := fun a b => Nat.decLe b.timestamp a.timestamp

instance : IsTotal CloudMessage ctsGE := ⟨fun a b => Nat.le_total b.timestamp a.timestamp⟩

instance : IsTrans CloudMessage ctsGE := ⟨fun _ _ _ h h' => Nat.le_trans h' h⟩

/-- Whether a cloud document belongs to the chat with `peerId` for the
current user (documents of `chats/{chatId(peerId)}/messages`). -/
def inChatWith (localUserId peerId : String) (c : CloudMessage) : Bool :=
  (c.senderId == localUserId && c.receiverId == peerId) ||
  (c.senderId == peerId && c.receiverId == localUserId)

/-- `FirebaseService.getChatMessages(peerId, limit)` (lines 618-648):
fetch the chat's messages ordered by timestamp descending with a limit,
then return them sorted ascending by timestamp. -/
def getChatMessages (fb : FirebaseState) (peerId : String) (lim : Nat) :
    List CloudMessage :=
  ((((fb.cloud.filter (inChatWith (fb.userId.getD "") peerId)).insertionSort
      ctsGE).take lim).insertionSort ctsLE)

/-- The `MessageInput` under which `getMessages` re-persists a fetched
cloud message locally (`saveMessage({...msg, localUserId: this.userId},
false)`). -/
def cloudInputOf (localUserId : String) (c : CloudMessage) : MessageInput :=
  { messageId := c.docId
    peerId := if c.receiverId == localUserId then c.senderId else c.receiverId
    senderId := c.senderId
    localUserId := localUserId
    mtype := c.mtype
    content := c.content
    timestamp := c.timestamp
    isDelivered := c.isDelivered
    isEmergency := c.isEmergency }

/-- The merge step of `getMessages`: starting from the local results, each
cloud entry is appended unless some entry already in the accumulator has
an equal `messageId` field. -/
def mergeViews (localMessages : List ViewMsg) (cloudMessages : List ViewMsg) :
    List ViewMsg :=
  cloudMessages.foldl
    (fun acc c => if acc.any (fun l => l.messageId == c.messageId) then acc
                  else acc ++ [c])
    localMessages

/-- `MessagingService.getMessages(peerId, limit)` (lines 550-611 of the
module). Throws (`none`) when not initialized. Fetches local rows, then —
when online and signed in — the cloud chat messages, persists each cloud
message locally with `needsSync = false`, merges (dropping a cloud entry
only when an accumulated entry's `messageId` field equals its own), and
sorts the merged view ascending by timestamp. Returns the view and the
updated local store. -/
def getMessages (svc : MessagingState) (fb : FirebaseState) (db : Store)
    (peerId : String) (lim : Nat) : Option (List ViewMsg × Store) :=
  if !svc.initialized then none
  else
    let localMessages := (getMessagesByPeerId db peerId lim 0).map localToView
    let cloudRaw :=
      if svc.isOnline && fbIsSignedIn fb then getChatMessages fb peerId lim
      else []
    let cloudMessages := cloudRaw.map (cloudToView svc.userId)
    let db' := cloudRaw.foldl
      (fun d c => dbSaveMessage d (cloudInputOf svc.userId c) false) db
    some ((mergeViews localMessages cloudMessages).insertionSort vtsLE, db')

/-- The fields of `BackgroundLocationService` read by the mode controller
(`mapCacheService.js`, third embedded module). -/
structure TrackerState where
  isInitialized : Bool
  isTracking : Bool
  trackingMode : String
deriving DecidableEq

/-- `BackgroundLocationService.setTrackingMode(mode)` (lines 1162-1186):
returns `false` without any change when not initialized; a no-op success
when the mode is unchanged; otherwise records the new mode (the
`BackgroundGeolocation.setConfig` call is external). -/
def setTrackingMode (st : TrackerState) (mode : String) : TrackerState × Bool :=
  if !st.isInitialized then (st, false)
  else if mode == st.trackingMode then (st, true)
  else ({ st with trackingMode := mode }, true)

/-- `BackgroundLocationService._onActivityChange(event)` (lines 1599-1621):
only when `event.confidence >= 75`, maps `still ↦ power-saving`,
`walking/on_foot ↦ standard`, `running/on_bicycle ↦ high-accuracy`,
calling `setTrackingMode` only when the target differs from the current
mode; any other activity, and any sub-threshold event, changes nothing. -/
def onActivityChange (st : TrackerState) (activity : String) (confidence : Nat) :
    TrackerState :=
  if confidence ≥ 75 then
    if activity == "still" then
      if st.trackingMode != "power-saving" then (setTrackingMode st "power-saving").1
      else st
    else if activity == "walking" || activity == "on_foot" then
      if st.trackingMode != "standard" then (setTrackingMode st "standard").1
      else st
    else if activity == "running" || activity == "on_bicycle" then
      if st.trackingMode != "high-accuracy" then (setTrackingMode st "high-accuracy").1
      else st
    else st
  else st

/-! ### Interleaving semantics for overlapping sweep invocations

`syncMessagesToCloud` is an `async` function: every `await` is a
suspension point at which another invocation (from an overlapping timer
fire) may run. The following small-step machine cuts one invocation at
its suspension points: the guard + `getMessagesNeedingSync` query
(one atomic fetch), then per message the `updateMessageSyncStatus
(…, 'syncing')` write, the Firestore `saveMessage`, and the
`markMessageForSync(…, false)` / `'synced'` finalisation. Merging several
consecutive awaits into one atomic step only REMOVES interleavings, so
any behaviour exhibited here is exhibited by the source. This machine
models the failure-free path (`fail ≡ false`). -/

/-- The continuation of one in-flight sweep invocation, cut at its
`await` boundaries. -/
inductive InvPhase where
  | start
  | willMarkSyncing (m : MessageRow) (rest : List MessageRow)
  | willCloudSave (m : MessageRow) (rest : List MessageRow)
  | willFinish (m : MessageRow) (rest : List MessageRow)
  | idle
deriving DecidableEq

/-- One atomic step of a sweep invocation against the shared state.
Returns the new shared state, the invocation's next phase, and how many
cloud-save calls this step performed (0 or 1). -/
def stepInv (now : Nat) (g : FirebaseState × Store) (p : InvPhase) :
    (FirebaseState × Store) × InvPhase × Nat :=
  match p with
  | .start =>
    if g.1.initialized && g.1.userId.isSome && g.1.onlineStatus then
      match getMessagesNeedingSync g.2 50 with
      | [] => (g, .idle, 0)
      | m :: rest => (g, .willMarkSyncing m rest, 0)
    else (g, .idle, 0)
  | .willMarkSyncing m rest =>
    ((g.1, updateMessageSyncStatus g.2 m.id "syncing"), .willCloudSave m rest, 0)
  | .willCloudSave m rest =>
    match fbSaveMessage g.1 m.peer_id m.mtype m.content m.is_emergency now with
    | none => ((g.1, updateMessageSyncStatus g.2 m.id "failed"), nextPhase rest, 0)
    | some (fb', _) => ((fb', g.2), .willFinish m rest, 1)
  | .willFinish m rest =>
    ((g.1, updateMessageSyncStatus (markMessageForSync g.2 m.id false) m.id "synced"),
     nextPhase rest, 0)
  | .idle => (g, .idle, 0)
where
  nextPhase : List MessageRow → InvPhase
    | [] => .idle
    | m' :: r' => .willMarkSyncing m' r'

/-- Run two sweep invocations A and B under a schedule: `false` steps A,
`true` steps B. Returns the final shared state, final phases, and the
cloud-save call counts of A and B. -/
def runTwoSweeps (now : Nat) : List Bool → (FirebaseState × Store) →
    InvPhase → InvPhase → Nat → Nat →
    (FirebaseState × Store) × InvPhase × InvPhase × Nat × Nat
  | [], g, pa, pb, ca, cb => (g, pa, pb, ca, cb)
  | b :: rest, g, pa, pb, ca, cb =>
    if b then
      let r := stepInv now g pb
      runTwoSweeps now rest r.1 pa r.2.1 ca (cb + r.2.2)
    else
      let r := stepInv now g pa
      runTwoSweeps now rest r.1 r.2.1 pb (ca + r.2.2) cb

/-! ### Concrete scenario states used by the counterexamples -/

/-- A pending outgoing text message flagged for sync. -/
def rPend : MessageRow :=
  { id := "m1", peer_id := "p1", sender_id := "u", mtype := "text"
    content := "hello", timestamp := 1, is_outgoing := true
    is_emergency := false, is_delivered := false, needs_sync := true
    sync_status := "pending" }

/-- A second pending message, emergency-flagged, with a later timestamp. -/
def rEmerg : MessageRow :=
  { id := "m2", peer_id := "p1", sender_id := "u", mtype := "sos"
    content := "help", timestamp := 2, is_outgoing := true
    is_emergency := true, is_delivered := false, needs_sync := true
    sync_status := "pending" }

/-- A message stuck in `'syncing'` (e.g. after a crash during a send). -/
def rStuck : MessageRow :=
  { rPend with id := "m3", sync_status := "syncing", timestamp := 0 }

/-- Firebase service state: initialized, signed in, online, empty cloud. -/
def fbOnline : FirebaseState :=
  { initialized := true, userId := some "u", onlineStatus := true, cloud := [] }

/-- Messaging service state: initialized, online, offline messaging on. -/
def svcOnline : MessagingState :=
  { initialized := true, isOnline := true, isOfflineMessagingEnabled := true
    userId := "u" }

/-- Messaging service state while the device is offline. -/
def svcOffline : MessagingState := { svcOnline with isOnline := false }

/-- Firebase service state while the device is offline. -/
def fbOffline : FirebaseState := { fbOnline with onlineStatus := false }

/-- Modelled from the spec's words (claim C3 only): the ordering the spec
claims for `queryNeedingSync` — emergency flag descending, then timestamp
ascending. This definition follows the spec, not the source, and exists
solely to be compared against `getMessagesNeedingSync`. -/
def specEmergencyFirst (a b : MessageRow) : Prop :=
  (a.is_emergency = true ∧ b.is_emergency = false) ∨
  (a.is_emergency = b.is_emergency ∧ a.timestamp ≤ b.timestamp)

instance : DecidableRel specEmergencyFirst := fun _ _ => by
  unfold specEmergencyFirst; infer_instance

/-- A cloud store holding one chat message for peer `p1`, as left behind
by an earlier successful cloud save. -/
def fbC8 : FirebaseState :=
  { fbOnline with cloud :=
      [{ docId := "doc0", senderId := "u", receiverId := "p1"
         mtype := "text", content := "hi", timestamp := 5
         isDelivered := false, isEmergency := false }] }

/-- Two `getMessages` calls against `fbC8`: the first (on an empty local
store) persists the fetched cloud message locally; the view returned by
the second call. -/
def c8SecondView : List ViewMsg :=
  match (getMessages svcOnline fbC8 [] "p1" 50).bind
      (fun r1 => getMessages svcOnline fbC8 r1.2 "p1" 50) with
  | some r => r.1
  | none => []

/-- The outcome of the first `getMessages` call of the C8 scenario (view
and updated local store), written out. -/
def c8FirstOut : List ViewMsg × Store :=
  ([{ messageId := some "doc0", rowId := none, peerId := "p1"
      mtype := "text", content := "hi", timestamp := 5 }],
   [{ id := "doc0", peer_id := "p1", sender_id := "u", mtype := "text"
      content := "hi", timestamp := 5, is_outgoing := true
      is_emergency := false, is_delivered := false, needs_sync := false
      sync_status := "pending" }])

/-- The outcome of a concrete successful online text send (id `m9`,
content `hi` to peer `p1`), written out: the persisted row, the cloud
store holding the one saved document, the call trace and the returned
status. -/
def c6Out : Store × FirebaseState × List SendEvent × Bool :=
  ([{ id := "m9", peer_id := "p1", sender_id := "u", mtype := "text"
      content := "hi", timestamp := 3, is_outgoing := true
      is_emergency := false, is_delivered := false, needs_sync := true
      sync_status := "pending" }],
   { fbOnline with cloud :=
      [{ docId := "doc0", senderId := "u", receiverId := "p1"
         mtype := "text", content := "hi", timestamp := 3
         isDelivered := false, isEmergency := false }] },
   [SendEvent.persistLocal "m9", SendEvent.cloudSave "p1" "text" "hi"],
   true)

/-- The local store after `sendTextMessage('p1', 'hello')` runs while the
device is offline (`isOnline = false`), with generated id `m1`. -/
def dbAfterOfflineSend : Store :=
  match sendTextMessage svcOffline fbOffline [] "p1" "hello" "m1" 1 1 false true with
  | some out => out.1
  | none => []

/-- An interleaved run of two sweep invocations over a store holding one
pending message: invocation A starts, then B starts (fires while A is
suspended at its first await), then A runs to completion, then B runs to
completion. -/
def c4Run : (FirebaseState × Store) × InvPhase × InvPhase × Nat × Nat :=
  runTwoSweeps 10 [false, true, false, false, false, true, true, true]
    (fbOnline, [rPend]) .start .start 0 0

/-- Duplicate-persist inputs for claim C9: same identifier `x`, the
first save carrying the later timestamp. -/
def mInLater : MessageInput :=
  { messageId := "x", peerId := "p1", senderId := "u", localUserId := "u"
    mtype := "text", content := "B", timestamp := 2
    isDelivered := false, isEmergency := false }

/-- The conflicting duplicate: same identifier, earlier timestamp,
different content. -/
def mInEarlier : MessageInput := { mInLater with content := "A", timestamp := 1 }

/-! ## Helper lemmas -/

/-- Rows returned by `getMessagesNeedingSync` come from the store and
satisfy the `WHERE` clause: flagged for sync and status `'pending'`. -/
theorem mem_getMessagesNeedingSync {db : Store} {lim : Nat} {r : MessageRow}
    (h : r ∈ getMessagesNeedingSync db lim) :
    r ∈ db ∧ r.needs_sync = true ∧ r.sync_status = "pending" := by
  unfold getMessagesNeedingSync at h
  have h1 : r ∈ (db.filter needsSyncPending).insertionSort tsLE :=
    List.take_subset _ _ h
  rw [List.mem_insertionSort] at h1
  have h2 := List.mem_filter.mp h1
  have h3 := h2.2
  unfold needsSyncPending at h3
  rw [Bool.and_eq_true, beq_iff_eq] at h3
  exact ⟨h2.1, h3.1, h3.2⟩

/-- The query result is sorted ascending by timestamp. -/
theorem sorted_getMessagesNeedingSync (db : Store) (lim : Nat) :
    List.Sorted tsLE (getMessagesNeedingSync db lim) :=
  List.Pairwise.sublist (List.take_sublist _ _)
    (List.sorted_insertionSort tsLE _)

/-- When the pending backlog fits under the limit, the query returns
exactly the rows satisfying the `WHERE` clause (as a permutation). -/
theorem perm_getMessagesNeedingSync {db : Store} {lim : Nat}
    (h : (db.filter needsSyncPending).length ≤ lim) :
    List.Perm (getMessagesNeedingSync db lim) (db.filter needsSyncPending) := by
  unfold getMessagesNeedingSync
  rw [List.take_of_length_le]
  · exact List.perm_insertionSort tsLE _
  · rw [(List.perm_insertionSort tsLE _).length_eq]
    exact h

/-- `writeAhead` accepts any suffix once a persist has been seen. -/
theorem writeAhead_true (l : List SendEvent) : writeAhead true l = true := by
  induction l with
  | nil => rfl
  | cons e tl ih => cases e <;> simp [writeAhead, ih]

/-- A status update keyed on another id preserves the property that every
row with id `mid` has status `'syncing'`. -/
theorem updateStatus_preserves_syncing {db : Store} {k status mid : String}
    (hne : k ≠ mid)
    (hdb : ∀ r ∈ db, r.id = mid → r.sync_status = "syncing") :
    ∀ r ∈ updateMessageSyncStatus db k status, r.id = mid →
      r.sync_status = "syncing" := by
  intro r hr hid
  unfold updateMessageSyncStatus at hr
  rw [List.mem_map] at hr
  obtain ⟨x, hx, hfx⟩ := hr
  by_cases hxe : x.id = k
  · rw [if_pos (by simpa using hxe)] at hfx
    subst hfx
    exact absurd hid (hxe ▸ hne)
  · rw [if_neg (by simpa using hxe)] at hfx
    exact hdb r (hfx ▸ hx) hid

/-- Likewise for `markMessageForSync` keyed on another id. -/
theorem markForSync_preserves_syncing {db : Store} {k : String} {ns : Bool}
    {mid : String} (hne : k ≠ mid)
    (hdb : ∀ r ∈ db, r.id = mid → r.sync_status = "syncing") :
    ∀ r ∈ markMessageForSync db k ns, r.id = mid →
      r.sync_status = "syncing" := by
  intro r hr hid
  unfold markMessageForSync at hr
  rw [List.mem_map] at hr
  obtain ⟨x, hx, hfx⟩ := hr
  by_cases hxe : x.id = k
  · rw [if_pos (by simpa using hxe)] at hfx
    subst hfx
    exact absurd hid (hxe ▸ hne)
  · rw [if_neg (by simpa using hxe)] at hfx
    exact hdb r (hfx ▸ hx) hid

/-- Through the whole per-message loop: if no processed message carries id
`mid` and every stored row with id `mid` is `'syncing'`, that stays true. -/
theorem syncLoop_preserves_syncing (fail : String → Bool) (now : Nat)
    (msgs : List MessageRow) :
    ∀ (fb : FirebaseState) (db : Store) (count : Nat) (mid : String),
    (∀ m ∈ msgs, m.id ≠ mid) →
    (∀ r ∈ db, r.id = mid → r.sync_status = "syncing") →
    ∀ r ∈ (syncLoop fail now msgs fb db count).2.1, r.id = mid →
      r.sync_status = "syncing" := by
  induction msgs with
  | nil => intro fb db count mid _ hdb; simpa [syncLoop] using hdb
  | cons m rest ih =>
    intro fb db count mid hm hdb
    have hmne : m.id ≠ mid := hm m (List.mem_cons_self _ _)
    have hrest : ∀ m' ∈ rest, m'.id ≠ mid :=
      fun m' h => hm m' (List.mem_cons_of_mem _ h)
    have h1 := @updateStatus_preserves_syncing _ _ "syncing" _ hmne hdb
    unfold syncLoop
    by_cases hf : fail m.id
    · simpa [hf] using
        ih fb _ count mid hrest
          (@updateStatus_preserves_syncing _ _ "failed" _ hmne h1)
    · cases hsave : fbSaveMessage fb m.peer_id m.mtype m.content m.is_emergency now with
      | none =>
        simpa [hf, hsave] using
          ih fb _ count mid hrest
            (@updateStatus_preserves_syncing _ _ "failed" _ hmne h1)
      | some out =>
        simpa [hf, hsave] using
          ih out.1 _ (count + 1) mid hrest
            (@updateStatus_preserves_syncing _ _ "synced" _ hmne
              (markForSync_preserves_syncing hmne h1))

/-- On an initialized tracker, `setTrackingMode` always results in the
requested mode. -/
theorem setTrackingMode_sets {st : TrackerState} (hinit : st.isInitialized = true)
    (mode : String) : (setTrackingMode st mode).1.trackingMode = mode := by
  unfold setTrackingMode
  rw [hinit]
  by_cases h : mode = st.trackingMode
  · simp [h]
  · simp [h]

/-! ## Claim C1 -/

/-- C1, counterexample: with one pending message flagged for sync and a
cloud save that fails, the sweep leaves the message with status
`'failed'` — not `'pending'` — and the needing-sync query over the
resulting store returns nothing, so the message is never retried. This
refutes the claim that a cloud-save failure regresses the status to
`pending`. -/
theorem C1_counterexample :
    (syncMessagesToCloud (fun _ => true) 10 fbOnline [rPend]).2.1.map
        (fun r => r.sync_status) = ["failed"] ∧
    ("failed" : String) ≠ "pending" ∧
    getMessagesNeedingSync
      (syncMessagesToCloud (fun _ => true) 10 fbOnline [rPend]).2.1 50 = [] := by
  decide

/-- C1 (amended): the needing-sync query only ever returns rows with
status `'pending'`, and a cloud-save failure during the sweep sets the
message's status to `'failed'` — a status the query permanently
ignores, so the failed message is not retried by later sweeps. -/
theorem C1_failure_is_terminal :
    (∀ (db : Store) (lim : Nat) (r : MessageRow),
        r ∈ getMessagesNeedingSync db lim → r.sync_status = "pending") ∧
    ((syncMessagesToCloud (fun _ => true) 10 fbOnline [rPend]).2.1
        = [{ rPend with sync_status := "failed" }] ∧
      getMessagesNeedingSync
        (syncMessagesToCloud (fun _ => true) 10 fbOnline [rPend]).2.1 50 = []) :=
  ⟨fun _ _ _ h => (mem_getMessagesNeedingSync h).2.2, by decide, by decide⟩

/-- C1 witness: the amended theorem applied at a concrete store. -/
theorem C1_failure_is_terminal_witness :
    rPend ∈ getMessagesNeedingSync [rPend] 50 ∧ rPend.sync_status = "pending" :=
  ⟨by decide, C1_failure_is_terminal.1 [rPend] 50 rPend (by decide)⟩

/-! ## Claim C3 -/

/-- C3, counterexample: a store holding a non-emergency message at
timestamp 1 and an emergency message at timestamp 2 is returned in plain
timestamp order `[rPend, rEmerg]` — the emergency message comes second,
violating the claimed emergency-flag-descending primary order. -/
theorem C3_counterexample :
    getMessagesNeedingSync [rPend, rEmerg] 50 = [rPend, rEmerg] ∧
    rPend.is_emergency = false ∧ rEmerg.is_emergency = true ∧
    ¬ specEmergencyFirst rPend rEmerg := by
  decide

/-- C3 (amended): the needing-sync query returns exactly the rows flagged
for sync with status `'pending'` (all returned rows satisfy the filter,
and when the backlog fits under the limit the result is a permutation of
the filtered store), ordered by timestamp ascending ONLY — the emergency
flag plays no part in the order and emergency messages are not processed
first. -/
theorem C3_query_timestamp_order_only (db : Store) (lim : Nat) :
    (∀ r ∈ getMessagesNeedingSync db lim,
        r ∈ db ∧ r.needs_sync = true ∧ r.sync_status = "pending") ∧
    List.Sorted tsLE (getMessagesNeedingSync db lim) ∧
    ((db.filter needsSyncPending).length ≤ lim →
      List.Perm (getMessagesNeedingSync db lim) (db.filter needsSyncPending)) :=
  ⟨fun _ h => mem_getMessagesNeedingSync h, sorted_getMessagesNeedingSync db lim,
    fun h => perm_getMessagesNeedingSync h⟩

/-- C3 witness: the amended theorem applied at a concrete store. -/
theorem C3_query_timestamp_order_only_witness :
    (rEmerg ∈ getMessagesNeedingSync [rPend, rEmerg] 50 ∧
      rEmerg.needs_sync = true) ∧
    List.Perm (getMessagesNeedingSync [rPend, rEmerg] 50)
      (([rPend, rEmerg] : Store).filter needsSyncPending) :=
  ⟨⟨by decide,
      ((C3_query_timestamp_order_only [rPend, rEmerg] 50).1 rEmerg (by decide)).2.1⟩,
    (C3_query_timestamp_order_only [rPend, rEmerg] 50).2.2 (by decide)⟩

/-! ## Claim C5 -/

/-- C5, counterexample: a message stuck in `'syncing'` is untouched by the
next sweep — it keeps status `'syncing'` (never reclaimed to
`'pending'`), and the sweep performs no cloud save for it. This refutes
the claimed stale-lock reclamation. -/
theorem C5_counterexample :
    (syncMessagesToCloud (fun _ => false) 10 fbOnline [rStuck]).2.1 = [rStuck] ∧
    rStuck.sync_status = "syncing" ∧ ("syncing" : String) ≠ "pending" ∧
    (syncMessagesToCloud (fun _ => false) 10 fbOnline [rStuck]).1.cloud = [] := by
  decide

/-- C5 (amended): there is no stale-lock reclamation — if every stored row
with a given id is in status `'syncing'`, the sweep leaves every such row
in status `'syncing'` (the needing-sync query only selects `'pending'`
rows, and nothing else touches them), so a crash during a send strands the
message forever. Moreover the cloud save is not upsert-idempotent: saving
the same message twice appends two new documents. -/
theorem C5_no_stale_lock_reclamation :
    (∀ (fail : String → Bool) (now : Nat) (fb : FirebaseState) (db : Store)
        (mid : String),
      (∀ r ∈ db, r.id = mid → r.sync_status = "syncing") →
      ∀ r ∈ (syncMessagesToCloud fail now fb db).2.1, r.id = mid →
        r.sync_status = "syncing") ∧
    (∀ (fb : FirebaseState) (pid t c : String) (e : Bool) (now : Nat),
      fb.initialized = true → fb.userId.isSome = true →
      ((fbSaveMessage fb pid t c e now).bind
          (fun out => fbSaveMessage out.1 pid t c e now)).map
        (fun out => out.1.cloud.length) = some (fb.cloud.length + 2)) := by
  constructor
  · intro fail now fb db mid hdb r hr hid
    unfold syncMessagesToCloud at hr
    by_cases hg : (fb.initialized && fb.userId.isSome && fb.onlineStatus) = true
    · rw [if_pos hg] at hr
      have hmsgs : ∀ m ∈ getMessagesNeedingSync db 50, m.id ≠ mid := by
        intro m hm heq
        have h1 := mem_getMessagesNeedingSync hm
        have h2 := hdb m h1.1 heq
        rw [h1.2.2] at h2
        exact absurd h2 (by decide)
      exact syncLoop_preserves_syncing fail now _ fb db 0 mid hmsgs hdb r hr hid
    · rw [if_neg hg] at hr
      exact hdb r hr hid
  · intro fb pid t c e now hinit huser
    unfold fbSaveMessage
    simp [hinit, huser]

/-- C5 witness: the amended theorem applied at a concrete store and a
concrete double save. -/
theorem C5_no_stale_lock_reclamation_witness :
    (rStuck ∈ (syncMessagesToCloud (fun _ => false) 10 fbOnline [rStuck]).2.1 ∧
      rStuck.sync_status = "syncing") ∧
    ((fbSaveMessage fbOnline "p1" "text" "hello" false 10).bind
        (fun out => fbSaveMessage out.1 "p1" "text" "hello" false 10)).map
      (fun out => out.1.cloud.length) = some 2 :=
  ⟨⟨by decide,
      C5_no_stale_lock_reclamation.1 (fun _ => false) 10 fbOnline [rStuck] "m3"
        (by decide) rStuck (by decide) (by decide)⟩,
    C5_no_stale_lock_reclamation.2 fbOnline "p1" "text" "hello" false 10
      (by decide) (by decide)⟩

/-! ## Claim C2 -/

/-- C2 (code bug): a text message sent while the device is offline is
persisted with status `'pending'` but with `needs_sync = false` (the
source passes `this.isOnline` as the needs-sync flag), so after
connectivity is restored the sweep's query selects nothing: the sweep is
a complete no-op and the cloud transport receives zero save calls — the
message never transitions pending→syncing→synced. -/
theorem C2_offline_message_never_syncs :
    dbAfterOfflineSend.map (fun r => (r.id, r.sync_status, r.needs_sync))
      = [("m1", "pending", false)] ∧
    getMessagesNeedingSync dbAfterOfflineSend 50 = [] ∧
    syncMessagesToCloud (fun _ => false) 2 { fbOffline with onlineStatus := true }
        dbAfterOfflineSend
      = ({ fbOffline with onlineStatus := true }, dbAfterOfflineSend, 0) ∧
    ({ fbOffline with onlineStatus := true } : FirebaseState).cloud = [] := by
  decide

/-! ## Claim C4 -/

/-- C4, counterexample: two sweep invocations interleaved as in `c4Run`
(B's first step runs while A is suspended after its query) — the second
invocation performs one cloud-save call, not zero, so it is not a no-op:
there is no running-flag guard. -/
theorem C4_counterexample : c4Run.2.2.2.2 ≠ 0 ∧ c4Run.2.2.2.2 = 1 := by
  decide

/-- C4 (amended): `syncMessagesToCloud` has no re-entrancy guard — its
only guard is the initialized/signed-in/online check. When a second
invocation starts while the first is suspended at its first await, both
invocations run the query before either marks the message `'syncing'`,
both execute the cloud-save loop to completion (one cloud-save call
each), and the single pending message is saved to the cloud twice. -/
theorem C4_overlapping_sweeps_both_save :
    c4Run.2.2.2.1 = 1 ∧ c4Run.2.2.2.2 = 1 ∧
    c4Run.1.1.cloud.map (fun c => (c.receiverId, c.content))
      = [("p1", "hello"), ("p1", "hello")] ∧
    c4Run.2.1 = InvPhase.idle ∧ c4Run.2.2.1 = InvPhase.idle := by
  decide

/-! ## Claim C9 -/

/-- C9 (code bug): persisting id `x` with timestamp 2 and content `"B"`,
then again with timestamp 1 and content `"A"`, leaves exactly one stored
record — but its content is `"A"`, the content of the LAST save call,
although `"B"` carries the later timestamp: `INSERT OR REPLACE` performs
no timestamp comparison. -/
theorem C9_replace_ignores_timestamps :
    dbSaveMessage (dbSaveMessage [] mInLater true) mInEarlier true
      = [rowOfInput mInEarlier true] ∧
    (rowOfInput mInEarlier true).content = "A" ∧
    mInEarlier.timestamp < mInLater.timestamp ∧
    mInLater.content = "B" ∧ ("A" : String) ≠ "B" := by
  decide

/-! ## Claim C10 -/

/-- C10 (confirmed): on an initialized tracker, an activity-classification
event with confidence below 75 never changes the state; one with
confidence at or above 75 switches the mode to power-saving for `still`,
standard for `walking`/`on_foot`, and high-accuracy for
`running`/`on_bicycle`. -/
theorem C10_confidence_threshold_mapping (st : TrackerState)
    (activity : String) (confidence : Nat)
    (hinit : st.isInitialized = true) :
    (confidence < 75 → onActivityChange st activity confidence = st) ∧
    (75 ≤ confidence →
      (activity = "still" →
        (onActivityChange st activity confidence).trackingMode = "power-saving") ∧
      ((activity = "walking" ∨ activity = "on_foot") →
        (onActivityChange st activity confidence).trackingMode = "standard") ∧
      ((activity = "running" ∨ activity = "on_bicycle") →
        (onActivityChange st activity confidence).trackingMode = "high-accuracy")) := by
  refine ⟨fun h => ?_, fun h75 => ⟨?_, ?_, ?_⟩⟩
  · unfold onActivityChange
    rw [if_neg (by omega)]
  · intro ha; subst ha
    by_cases hm : st.trackingMode = "power-saving" <;>
      simp [onActivityChange, h75, hm, setTrackingMode_sets hinit]
  · rintro (ha | ha) <;> subst ha <;>
      (by_cases hm : st.trackingMode = "standard" <;>
        simp [onActivityChange, h75, hm, setTrackingMode_sets hinit])
  · rintro (ha | ha) <;> subst ha <;>
      (by_cases hm : st.trackingMode = "high-accuracy" <;>
        simp [onActivityChange, h75, hm, setTrackingMode_sets hinit])

/-- C10 witness: the theorem applied on a concrete initialized tracker,
for an at-threshold `still` event and a sub-threshold `running` event. -/
theorem C10_confidence_threshold_mapping_witness :
    (⟨true, true, "standard"⟩ : TrackerState).isInitialized = true ∧
    (onActivityChange ⟨true, true, "standard"⟩ "still" 80).trackingMode
      = "power-saving" ∧
    onActivityChange ⟨true, true, "standard"⟩ "running" 60
      = ⟨true, true, "standard"⟩ :=
  ⟨rfl,
    ((C10_confidence_threshold_mapping ⟨true, true, "standard"⟩ "still" 80
        rfl).2 (by omega)).1 rfl,
    (C10_confidence_threshold_mapping ⟨true, true, "standard"⟩ "running" 60
        rfl).1 (by omega)⟩

/-! ## Claim C6 -/

/-- C6, counterexample: an SOS broadcast while online and signed in makes
a cloud transport attempt and a peer broadcast attempt with NO local
persist anywhere in its call trace — the write-ahead discipline is
violated on the SOS path. -/
theorem C6_counterexample :
    sendSOSMessage svcOnline fbOnline "help" true false true
      = some ([SendEvent.cloudSaveUserLocation true,
               SendEvent.peerBroadcastSOS "help"], true, true) ∧
    writeAhead false [SendEvent.cloudSaveUserLocation true,
        SendEvent.peerBroadcastSOS "help"] = false ∧
    (SendEvent.cloudSaveUserLocation true).isTransport = true := by
  decide

/-- C6 (amended): every text-message send persists the message locally
before any transport attempt (its call trace satisfies the write-ahead
discipline), but the SOS broadcast path attempts its transports without
persisting anything: its trace contains transport attempts and no
persist. -/
theorem C6_write_ahead_except_sos :
    (∀ (svc : MessagingState) (fb : FirebaseState) (db : Store)
        (peerId text msgId : String) (ts now : Nat) (cf pr : Bool)
        (out : Store × FirebaseState × List SendEvent × Bool),
      sendTextMessage svc fb db peerId text msgId ts now cf pr = some out →
      writeAhead false out.2.2.1 = true) ∧
    (sendSOSMessage svcOnline fbOnline "help" true false true).map
        (fun out => (writeAhead false out.1, out.1.any SendEvent.isTransport))
      = some (false, true) := by
  constructor
  · intro svc fb db peerId text msgId ts now cf pr out h
    by_cases hi : svc.initialized = true
    · simp only [sendTextMessage, hi, Bool.not_true, Bool.false_eq_true,
        if_false, Option.some.injEq] at h
      rw [← h]
      show writeAhead false (SendEvent.persistLocal msgId :: _) = true
      rw [show ∀ tl, writeAhead false (SendEvent.persistLocal msgId :: tl)
            = writeAhead true tl from fun _ => rfl]
      exact writeAhead_true _
    · rw [Bool.not_eq_true] at hi
      simp [sendTextMessage, hi] at h
  · decide

/-- C6 witness: the amended theorem applied to a concrete online send. -/
theorem C6_write_ahead_except_sos_witness :
    writeAhead false c6Out.2.2.1 = true :=
  C6_write_ahead_except_sos.1 svcOnline fbOnline [] "p1" "hi" "m9" 3 3
    false true c6Out (by decide)

/-! ## Claim C7 -/

/-- C7, counterexample: a cloud-only success (peer leg failed) and a
peer-only success (cloud leg failed) are runs with different per-leg
outcomes, yet they produce the identical user-visible alert
(`'SOS Sent' … and to the cloud.`) — so the outcome does not state which
of the four cases occurred, and the failed leg is silent. -/
theorem C7_counterexample :
    (sendSOSMessage svcOnline fbOnline "help" true false false).map
        (fun out => (out.2.1, out.2.2)) = some (true, false) ∧
    (sendSOSMessage svcOnline fbOnline "help" true true true).map
        (fun out => (out.2.1, out.2.2)) = some (false, true) ∧
    sosSendOutcome svcOnline fbOnline "help" true false false
      = sosSendOutcome svcOnline fbOnline "help" true true true := by
  decide

/-- C7 (amended): both legs are attempted independently, but the
user-visible outcome reports only the DISJUNCTION of the two legs (plus
whether the user is signed in): any two runs whose legs agree on the
disjunction produce the same alert, and in particular a peer-only success
still shows the full-success alert, silently swallowing the cloud leg's
failure. -/
theorem C7_outcome_reports_only_disjunction :
    (∀ (svc : MessagingState) (fb : FirebaseState) (msg : String)
        (hl cf pr cf' pr' : Bool) (tr tr' : List SendEvent) (f b f' b' : Bool),
      sendSOSMessage svc fb msg hl cf pr = some (tr, f, b) →
      sendSOSMessage svc fb msg hl cf' pr' = some (tr', f', b') →
      (f || b) = (f' || b') →
      sosSendOutcome svc fb msg hl cf pr = sosSendOutcome svc fb msg hl cf' pr') ∧
    sosSendOutcome svcOnline fbOnline "help" true true true
      = SOSAlert.sent true := by
  constructor
  · intro svc fb msg hl cf pr cf' pr' tr tr' f b f' b' h1 h2 hfb
    unfold sosSendOutcome
    rw [h1, h2]
    simp only [hfb]
  · decide

/-- C7 witness: the amended theorem applied to the cloud-only and
peer-only runs. -/
theorem C7_outcome_reports_only_disjunction_witness :
    sosSendOutcome svcOnline fbOnline "help" true false false
      = sosSendOutcome svcOnline fbOnline "help" true true true :=
  C7_outcome_reports_only_disjunction.1 svcOnline fbOnline "help"
    true false false true true
    [SendEvent.cloudSaveUserLocation true, SendEvent.peerBroadcastSOS "help"]
    [SendEvent.cloudSaveUserLocation true, SendEvent.peerBroadcastSOS "help"]
    true false false true (by decide) (by decide) (by decide)

/-! ## Claim C8 -/

/-- C8, counterexample: after a first `getMessages` call persists the
fetched cloud message locally, a second call returns a view holding TWO
entries with identifier `doc0` — the dedup step compares the cloud
entry's `messageId` field against the accumulated entries' `messageId`
field, which local rows do not carry, so the duplicate is retained. -/
theorem C8_counterexample :
    c8SecondView.map viewIdent = ["doc0", "doc0"] ∧
    ¬ (c8SecondView.map viewIdent).Nodup := by
  decide

/-- C8 (amended): every merged view `getMessages` returns is sorted
ascending by timestamp, but it can contain duplicate identifiers: a cloud
entry whose identifier already appears among the local results is NOT
removed (the filter reads a `messageId` field absent from local rows). -/
theorem C8_view_sorted_but_not_dedup :
    (∀ (svc : MessagingState) (fb : FirebaseState) (db : Store)
        (peerId : String) (lim : Nat) (out : List ViewMsg × Store),
      getMessages svc fb db peerId lim = some out →
      List.Sorted vtsLE out.1) ∧
    (c8SecondView.map viewIdent = ["doc0", "doc0"] ∧
      List.Sorted vtsLE c8SecondView) := by
  constructor
  · intro svc fb db peerId lim out h
    by_cases hi : svc.initialized = true
    · simp only [getMessages, hi, Bool.not_true, Bool.false_eq_true,
        if_false, Option.some.injEq] at h
      rw [← h]
      exact List.sorted_insertionSort vtsLE _
    · rw [Bool.not_eq_true] at hi
      simp [getMessages, hi] at h
  · constructor
    · decide
    · decide

/-- C8 witness: the amended theorem applied to the first call of the
concrete scenario. -/
theorem C8_view_sorted_but_not_dedup_witness :
    List.Sorted vtsLE c8FirstOut.1 :=
  C8_view_sorted_but_not_dedup.1 svcOnline fbC8 [] "p1" 50 c8FirstOut
    (by decide)

end HikerLink
